import Mathlib

/-!
Verification of the Edgee Go SDK (`edgee/edgee.go`): a shallow embedding of
the streaming agentic tool-execution engine — the SSE frame parser, the
delta accumulator, the tool executor and the agentic loop (both the
non-streaming `sendWithAutoTools` and the streaming `streamWithAutoTools`)
— together with theorems settling the specification's claims about them.

External collaborators (HTTP transport, JSON encode/decode) are modelled as
function parameters: a transport oracle mapping the outgoing message list to
the decoded response (non-streaming) or to the delivered chunk sequence plus
optional terminal error (streaming), a `parseArgs` oracle standing for
`json.Unmarshal` of a tool call's argument text, and tool handlers whose
successful result is identified by the string `json.Marshal` would produce
for it.
-/

namespace Edgee

/-- `FunctionCall` (edgee.go:159): function name and raw argument text. -/
structure FunctionCall where
  Name : String
  Arguments : String
deriving Repr, DecidableEq

/-- `ToolCall` (edgee.go:152): a function call request from the model.
The Go field `Type` is named `Typ` here because `Type` is a Lean keyword. -/
structure ToolCall where
  ID : String
  Typ : String
  Function : FunctionCall
deriving Repr, DecidableEq

/-- `Message` (edgee.go:143): a chat message. -/
structure Message where
  Role : String
  Content : String
  Name : Option String := none
  ToolCalls : List ToolCall := []
  ToolCallID : Option String := none
deriving Repr, DecidableEq

/-- `Usage` (edgee.go:215): token usage counts (Go `int`, modelled as `Int`). -/
structure Usage where
  PromptTokens : Int
  CompletionTokens : Int
  TotalTokens : Int
deriving Repr, DecidableEq

/-- `StreamDelta` (edgee.go:194): a streaming chunk delta. -/
structure StreamDelta where
  Role : Option String := none
  Content : Option String := none
  ToolCalls : List ToolCall := []
deriving Repr, DecidableEq

/-- `Choice` (edgee.go:201): one choice of a non-streaming response. -/
structure Choice where
  Index : Int
  Message : Option Message := none
  FinishReason : Option String := none
deriving Repr, DecidableEq

/-- `StreamChoice` (edgee.go:208): one choice of a streaming chunk. -/
structure StreamChoice where
  Index : Int
  Delta : Option StreamDelta := none
  FinishReason : Option String := none
deriving Repr, DecidableEq

/-- `SendResponse` (edgee.go:222): a decoded non-streaming response. -/
structure SendResponse where
  ID : String := ""
  Object : String := ""
  Created : Int := 0
  Model : String := ""
  Choices : List Choice := []
  Usage : Option Usage := none
deriving Repr, DecidableEq

/-- `StreamChunk` (edgee.go:264): a decoded streaming response chunk. -/
structure StreamChunk where
  ID : String := ""
  Object : String := ""
  Created : Int := 0
  Model : String := ""
  Choices : List StreamChoice := []
deriving Repr, DecidableEq

/-- `SendResponse.Text` (edgee.go:232): text of the first choice, or `""`. -/
def SendResponse.Text (r : SendResponse) : String :=
  match r.Choices with
  | c :: _ =>
      match c.Message with
      | some m => m.Content
      | none => ""
  | [] => ""

/-- `SendResponse.MessageContent` (edgee.go:240): first choice's message. -/
def SendResponse.MessageContent (r : SendResponse) : Option Message :=
  match r.Choices with
  | c :: _ => c.Message
  | [] => none

/-- `SendResponse.ToolCalls` (edgee.go:256): tool calls of the first
choice's message, or the empty list (Go returns `nil`). -/
def SendResponse.ToolCalls (r : SendResponse) : List ToolCall :=
  match r.Choices with
  | c :: _ =>
      match c.Message with
      | some m => m.ToolCalls
      | none => []
  | [] => []

/-- `StreamChunk.Text` (edgee.go:273): delta text of the first choice. -/
def StreamChunk.Text (c : StreamChunk) : String :=
  match c.Choices with
  | ch :: _ =>
      match ch.Delta with
      | some d =>
          match d.Content with
          | some s => s
          | none => ""
      | none => ""
  | [] => ""

/-- The tool calls carried by the first choice's delta of a chunk, i.e. the
list iterated by the merge loop at edgee.go:596 (guarded there by
`len(chunk.Choices) > 0 && chunk.Choices[0].Delta != nil`). -/
def StreamChunk.DeltaToolCalls (c : StreamChunk) : List ToolCall :=
  match c.Choices with
  | ch :: _ =>
      match ch.Delta with
      | some d => d.ToolCalls
      | none => []
  | [] => []

/-! ## Delta accumulator (edgee.go:594-619)

The merge of one partial tool-call fragment into the in-progress list.
The Go loop scans `collectedToolCalls` for the first index `i` with
`collectedToolCalls[i].ID == tc.ID || (collectedToolCalls[i].ID == "" && i < len(collectedToolCalls))`;
the bound `i < len(collectedToolCalls)` is always true for an in-range
index, so the match condition is: stored id equals the fragment's id, or
the stored id is empty. A match merges (argument text concatenated,
id/type/name overwritten only when the fragment's value is non-empty) and
breaks; no match appends the fragment as a new entry. -/

/-- The merge of one fragment into a matched entry (edgee.go:601-611). -/
def mergeInto (stored tc : ToolCall) : ToolCall :=
  { ID := if tc.ID ≠ "" then tc.ID else stored.ID
    Typ := if tc.Typ ≠ "" then tc.Typ else stored.Typ
    Function :=
      { Name := if tc.Function.Name ≠ "" then tc.Function.Name else stored.Function.Name
        Arguments := stored.Function.Arguments ++ tc.Function.Arguments } }

/-- One step of the tool-call merge loop (edgee.go:597-618): merge the
fragment `tc` into the first entry whose stored id equals `tc.ID` or is
empty, else append `tc`. -/
def accumToolCall : List ToolCall → ToolCall → List ToolCall
  | [], tc => [tc]
  | stored :: rest, tc =>
      if stored.ID = tc.ID ∨ stored.ID = "" then
        mergeInto stored tc :: rest
      else
        stored :: accumToolCall rest tc

/-- The in-progress assistant turn built by the streaming loop: the text
accumulated in `assistantContent` and the `collectedToolCalls` list
(edgee.go:570-571). -/
structure AccumState where
  content : String
  toolCalls : List ToolCall
deriving Repr, DecidableEq

/-- Folding one delivered chunk into the in-progress turn
(edgee.go:589-620): non-empty text is appended to the content, and each
partial tool call of the first choice's delta is merged in order. -/
def accumChunk (st : AccumState) (c : StreamChunk) : AccumState :=
  { content := if c.Text ≠ "" then st.content ++ c.Text else st.content
    toolCalls := c.DeltaToolCalls.foldl accumToolCall st.toolCalls }

/-! ## Tool executor (edgee.go:430-471 and edgee.go:644-692)

`json.Unmarshal` of the argument text and the handler call are external;
they are modelled by oracles. A handler models Go's
`func(args map[string]any) (any, error)` composed with `json.Marshal` of
the successful value: `.ok s` stands for a success whose serialisation is
`s`, `.error e` for a failure with message `e`. -/

/-- Parsed tool-call arguments (the `map[string]any` produced by
`json.Unmarshal`), modelled as an association list. -/
def Args : Type := List (String × String)

/-- A tool handler: parsed arguments to serialised result or failure. -/
def ToolHandler : Type := Args → Except String String

/-- The `toolHandlers` map built from `input.Tools` (edgee.go:380-384,
edgee.go:551-555): later entries with the same name overwrite earlier
ones, as in a Go map populated in order. -/
def lookupHandler (tools : List (String × ToolHandler)) (name : String) :
    Option ToolHandler :=
  (tools.reverse.find? (fun p => p.1 = name)).map Prod.snd

/-- The single tool-result message appended to history for one assembled
tool call (edgee.go:430-470; the streaming executor at edgee.go:651-691
builds `resultStr` by the same four cases with the same strings). -/
def toolResultMessage (handlers : String → Option ToolHandler)
    (parseArgs : String → Except String Args) (tc : ToolCall) : Message :=
  match handlers tc.Function.Name with
  | none =>
      { Role := "tool"
        Content := "\x7b\"error\": \"Unknown tool: " ++ tc.Function.Name ++ "\"\x7d"
        ToolCallID := some tc.ID }
  | some handler =>
      match parseArgs tc.Function.Arguments with
      | .error e =>
          { Role := "tool"
            Content := "\x7b\"error\": \"Failed to parse arguments: " ++ e ++ "\"\x7d"
            ToolCallID := some tc.ID }
      | .ok args =>
          match handler args with
          | .error e =>
              { Role := "tool"
                Content := "\x7b\"error\": \"Tool execution failed: " ++ e ++ "\"\x7d"
                ToolCallID := some tc.ID }
          | .ok s =>
              { Role := "tool"
                Content := s
                ToolCallID := some tc.ID }

/-! ## Non-streaming agentic loop (`sendWithAutoTools`, edgee.go:377-475) -/

/-- `SimpleInput` (edgee.go:101): text, executable tools (kept as
name/handler pairs — descriptions and parameter schemas do not influence
the loop) and the iteration budget (Go `int`, modelled as `Int`). -/
structure SimpleInput where
  Text : String
  Tools : List (String × ToolHandler)
  MaxIterations : Int

/-- Ghost trace of the loop's externally visible actions: one `.request`
per transport call (carrying the message list sent), one `.exec` per
assembled tool call processed by the executor. -/
inductive TraceEv where
  | request (msgs : List Message)
  | exec (tc : ToolCall)
deriving Repr, DecidableEq

/-- Number of transport requests recorded in a trace. -/
def countRequests : List TraceEv → Nat
  | [] => 0
  | TraceEv.request _ :: rest => countRequests rest + 1
  | TraceEv.exec _ :: rest => countRequests rest

/-- The zero-valued `SendResponse{}` returned on budget exhaustion
(edgee.go:474). -/
def emptyResponse : SendResponse := {}

/-- The budget-exhaustion failure text
`fmt.Errorf("max tool iterations (%d) reached", input.MaxIterations)`
(edgee.go:474, edgee.go:701). -/
def budgetMessage (maxIterations : Int) : String :=
  "max tool iterations (" ++ toString maxIterations ++ ") reached"

/-- Usage accumulation for one iteration (edgee.go:407-414): a response
without usage leaves the total untouched; otherwise the total (freshly
zero-initialised if absent) is summed component-wise. -/
def addUsage (total : Option Usage) (u : Option Usage) : Option Usage :=
  match u with
  | none => total
  | some u' =>
      match total with
      | none =>
          some { PromptTokens := u'.PromptTokens
                 CompletionTokens := u'.CompletionTokens
                 TotalTokens := u'.TotalTokens }
      | some t =>
          some { PromptTokens := t.PromptTokens + u'.PromptTokens
                 CompletionTokens := t.CompletionTokens + u'.CompletionTokens
                 TotalTokens := t.TotalTokens + u'.TotalTokens }

/-- Outcome of the non-streaming loop: the pair returned by Go plus the
ghost trace. -/
structure SendResult where
  response : SendResponse
  error : Option String
  trace : List TraceEv
deriving Repr

/-- The `for iteration := 0; iteration < input.MaxIterations` loop of
`sendWithAutoTools` (edgee.go:392-474), with the remaining iteration count
as fuel. `transport` models `handleNonStreamingResponse` on the request
built from the current messages (model, tools and `stream=false` are
constant across iterations): it returns the Go `(response, err)` pair. -/
def sendLoop (transport : List Message → SendResponse × Option String)
    (handlers : String → Option ToolHandler)
    (parseArgs : String → Except String Args)
    (maxIterations : Int) :
    Nat → List Message → Option Usage → List TraceEv → SendResult
  | 0, _, _, tr =>
      { response := emptyResponse
        error := some (budgetMessage maxIterations)
        trace := tr }
  | fuel + 1, messages, totalUsage, tr =>
      let response := (transport messages).1
      match (transport messages).2 with
      | some e =>
          { response := response
            error := some e
            trace := tr ++ [TraceEv.request messages] }
      | none =>
          let total2 := addUsage totalUsage response.Usage
          let toolCalls := response.ToolCalls
          if toolCalls = [] then
            { response := { response with Usage := total2 }
              error := none
              trace := tr ++ [TraceEv.request messages] }
          else
            let msgs2 :=
              (match response.MessageContent with
               | some m => messages ++ [m]
               | none => messages)
              ++ toolCalls.map (toolResultMessage handlers parseArgs)
            sendLoop transport handlers parseArgs maxIterations fuel msgs2 total2
              (tr ++ [TraceEv.request messages] ++ toolCalls.map TraceEv.exec)

/-- `sendWithAutoTools` (edgee.go:377): run the loop from the single user
message, with `input.MaxIterations` iterations of budget (a non-positive
budget gives zero iterations, as in Go's `for` loop). -/
def sendWithAutoTools (transport : List Message → SendResponse × Option String)
    (parseArgs : String → Except String Args) (input : SimpleInput) : SendResult :=
  sendLoop transport (lookupHandler input.Tools) parseArgs input.MaxIterations
    input.MaxIterations.toNat [{ Role := "user", Content := input.Text }] none []

/-! ## Streaming agentic loop (`streamWithAutoTools`, edgee.go:541-705) -/

/-- The `Result` value (`any`) attached to a `tool_result` event
(edgee.go:653-684): either the `map[string]any\x7b"error": msg\x7d` built on the
three failure paths, or the handler's successful value (identified by its
serialisation). -/
inductive ToolValue where
  | errorMap (msg : String)
  | value (marshalled : String)
deriving Repr, DecidableEq

/-- `StreamEvent` (edgee.go:133), restricted to the fields each event kind
populates (edgee.go:584, 646, 679, 695). -/
inductive StreamEvent where
  | chunk (c : StreamChunk)
  | toolStart (tc : ToolCall)
  | toolResult (toolName : String) (result : ToolValue) (tc : ToolCall)
  | iterationComplete (iteration : Int)
deriving Repr, DecidableEq

/-- Whether an event is an `iteration_complete` event. -/
def StreamEvent.isIterationComplete : StreamEvent → Bool
  | StreamEvent.iterationComplete _ => true
  | _ => false

/-- The `Result` value computed for one tool call by the streaming
executor (edgee.go:651-675). -/
def streamToolValue (handlers : String → Option ToolHandler)
    (parseArgs : String → Except String Args) (tc : ToolCall) : ToolValue :=
  match handlers tc.Function.Name with
  | none => ToolValue.errorMap ("Unknown tool: " ++ tc.Function.Name)
  | some handler =>
      match parseArgs tc.Function.Arguments with
      | .error e => ToolValue.errorMap e
      | .ok args =>
          match handler args with
          | .error e => ToolValue.errorMap e
          | .ok s => ToolValue.value s

/-- The `for _, toolCall := range collectedToolCalls` executor loop of the
streaming variant (edgee.go:644-692): per call, a `tool_start` event, then
a `tool_result` event, and one tool message appended to history. Returns
the emitted events and the appended messages, in order. -/
def execToolsStreaming (handlers : String → Option ToolHandler)
    (parseArgs : String → Except String Args) :
    List ToolCall → List StreamEvent × List Message
  | [] => ([], [])
  | tc :: rest =>
      let evs :=
        [StreamEvent.toolStart tc,
         StreamEvent.toolResult tc.Function.Name (streamToolValue handlers parseArgs tc) tc]
      let msg := toolResultMessage handlers parseArgs tc
      let tail := execToolsStreaming handlers parseArgs rest
      (evs ++ tail.1, msg :: tail.2)

/-- Outcome of the streaming loop: the events emitted on the event channel
in order, the value delivered on the error channel (if any), and the number
of streaming requests issued. -/
structure StreamResult where
  events : List StreamEvent
  errOut : Option String
  requests : Nat
deriving Repr

/-- The iteration loop of `streamWithAutoTools` (edgee.go:560-701), with
remaining iterations as fuel and the Go `iteration` counter made explicit.
`streamReq` models `doStreamRequest` on the request built from the current
messages: the chunks delivered on the chunk channel, in order, and the
terminal error delivered on the error channel after them (if any). Chunks
are consumed in arrival order and the error is observed after all delivered
chunks — the in-order schedule of the two-channel select at edgee.go:576-628;
the schedule-sensitive behaviour of that select is modelled separately by
`selectConsume`. -/
def streamLoop (streamReq : List Message → List StreamChunk × Option String)
    (handlers : String → Option ToolHandler)
    (parseArgs : String → Except String Args)
    (maxIterations : Int) :
    Nat → Int → List Message → StreamResult
  | 0, _, _ =>
      { events := []
        errOut := some (budgetMessage maxIterations)
        requests := 0 }
  | fuel + 1, iteration, messages =>
      let chunks := (streamReq messages).1
      let chunkEvents := chunks.map StreamEvent.chunk
      let acc := chunks.foldl accumChunk { content := "", toolCalls := [] }
      match (streamReq messages).2 with
      | some e =>
          { events := chunkEvents
            errOut := some e
            requests := 1 }
      | none =>
          if acc.toolCalls = [] then
            { events := chunkEvents
              errOut := none
              requests := 1 }
          else
            let msgs2 := messages ++
              [{ Role := "assistant"
                 Content := acc.content
                 ToolCalls := acc.toolCalls }]
            let tools := execToolsStreaming handlers parseArgs acc.toolCalls
            let rest := streamLoop streamReq handlers parseArgs maxIterations fuel
              (iteration + 1) (msgs2 ++ tools.2)
            { events := chunkEvents ++ tools.1
                ++ [StreamEvent.iterationComplete (iteration + 1)] ++ rest.events
              errOut := rest.errOut
              requests := 1 + rest.requests }

/-- `streamWithAutoTools` (edgee.go:541): run the streaming loop from the
single user message. -/
def streamWithAutoTools (streamReq : List Message → List StreamChunk × Option String)
    (parseArgs : String → Except String Args) (input : SimpleInput) : StreamResult :=
  streamLoop streamReq (lookupHandler input.Tools) parseArgs input.MaxIterations
    input.MaxIterations.toNat 0 [{ Role := "user", Content := input.Text }]

/-! ## Frame parser (`doStreamRequest` read loop, edgee.go:745-776)

The byte stream is modelled as its list of lines (the segments delivered by
`reader.ReadBytes('\n')`); `decode` models `json.Unmarshal` into
`StreamChunk`, returning `none` on malformed payloads. The string helpers
mirror `strings.TrimSpace`, `strings.HasPrefix` and `strings.TrimPrefix`,
defined structurally over the character list of the string. -/

/-- Drop leading whitespace characters. -/
def dropLeadingWS : List Char → List Char
  | [] => []
  | ch :: rest => if ch.isWhitespace then dropLeadingWS rest else ch :: rest

/-- `strings.TrimSpace`: drop leading and trailing whitespace. -/
def trimSpace (s : String) : String :=
  { data := (dropLeadingWS (dropLeadingWS s.data).reverse).reverse }

/-- `strings.HasPrefix(lineStr, "data: ")` (edgee.go:761). -/
def hasDataMarker (s : String) : Bool :=
  "data: ".data.isPrefixOf s.data

/-- `strings.TrimPrefix(lineStr, "data: ")` after the marker check
(edgee.go:762): drop the six marker characters. -/
def dropDataMarker (s : String) : String :=
  { data := s.data.drop 6 }

/-- The line-by-line SSE frame parser: trim each line; skip blank lines;
skip lines not prefixed with `"data: "`; stop at the `[DONE]` sentinel;
skip payloads that fail to decode; yield every other decoded payload. -/
def parseSSELines (decode : String → Option StreamChunk) :
    List String → List StreamChunk
  | [] => []
  | line :: rest =>
      let lineStr := trimSpace line
      if lineStr = "" then parseSSELines decode rest
      else if hasDataMarker lineStr then
        let data := dropDataMarker lineStr
        if data = "[DONE]" then []
        else
          match decode data with
          | none => parseSSELines decode rest
          | some c => c :: parseSSELines decode rest
      else parseSSELines decode rest

/-! ## The two-channel select consumer (edgee.go:518-534, edgee.go:576-628)

Go's `select` picks uniformly among ready cases. The consumer loop is
modelled at the point where the producer (`doStreamRequest`) has finished:
`chunkBuf` holds the fragments still buffered on the chunk channel,
`errBuf` the error buffered on the error channel (`none` when the producer
closed it without an error). Both channels are closed, so both cases of the
select are always ready: receiving on the drained chunk channel yields
`ok=false` (the consumer breaks out), and receiving on the drained error
channel yields a nil error (the consumer breaks out). The `schedule` oracle
resolves each select: `true` takes the chunk case, `false` the error case. -/

/-- One consumer run: the fragments it processes (forwards as events), in
order, and the error it surfaces, if any. Taking the error case with an
error buffered surfaces the error immediately — any fragments still
buffered are never processed (edgee.go:528-532, edgee.go:622-627). -/
def selectConsume (schedule : Nat → Bool) :
    Nat → List StreamChunk → Option String → List StreamChunk × Option String
  | k, [], errBuf =>
      if schedule k then ([], none)
      else
        match errBuf with
        | some e => ([], some e)
        | none => ([], none)
  | k, c :: restBuf, errBuf =>
      if schedule k then
        let r := selectConsume schedule (k + 1) restBuf errBuf
        (c :: r.1, r.2)
      else
        match errBuf with
        | some e => ([], some e)
        | none => ([], none)

/-! ## Shared helper definitions and lemmas -/

/-- The initial message list of both loops (edgee.go:387, edgee.go:558). -/
def userMessage (text : String) : Message :=
  { Role := "user", Content := text }

/-- The concatenation, in arrival order, of the argument fragments of a
list of partial tool calls. -/
def concatenatedArguments : List ToolCall → String
  | [] => ""
  | f :: rest => f.Function.Arguments ++ concatenatedArguments rest

/-- With a single in-progress entry whose id is the shared non-empty id,
every further fragment carrying that id merges into it, concatenating the
argument fragments in arrival order. -/
lemma accumToolCall_single_id (cid : String) (hcid : cid ≠ "") :
    ∀ (fs : List ToolCall) (stored : ToolCall), stored.ID = cid →
      (∀ f ∈ fs, f.ID = cid) →
      ∃ tc, List.foldl accumToolCall [stored] fs = [tc] ∧ tc.ID = cid ∧
        tc.Function.Arguments = stored.Function.Arguments ++ concatenatedArguments fs
  | [], stored, hs, _ =>
      ⟨stored, rfl, hs, by simp [concatenatedArguments, String.append_empty]⟩
  | f :: rest, stored, hs, hall => by
      have hf : f.ID = cid := hall f (List.mem_cons_self f rest)
      have hmatch : stored.ID = f.ID ∨ stored.ID = "" := Or.inl (hs.trans hf.symm)
      have hstep : accumToolCall [stored] f = [mergeInto stored f] := by
        simp [accumToolCall, hmatch]
      have hmid : (mergeInto stored f).ID = cid := by
        have : f.ID ≠ "" := by rw [hf]; exact hcid
        simp [mergeInto, this, hf, hs]
      obtain ⟨tc, h1, h2, h3⟩ :=
        accumToolCall_single_id cid hcid rest (mergeInto stored f) hmid
          (fun g hg => hall g (List.mem_cons_of_mem f hg))
      refine ⟨tc, ?_, h2, ?_⟩
      · rw [List.foldl_cons, hstep, h1]
      · rw [h3]
        simp [mergeInto, concatenatedArguments, String.append_assoc]

/-!
### C1, C2 — the tool-call merge identity (edgee.go:596-618)

The spec (§3, §4.2) states that a fragment with an empty id correlates
positionally (same index within the in-progress list) and that a fragment
with a non-empty id correlates by id. The code's match condition
`collectedToolCalls[i].ID == tc.ID || (collectedToolCalls[i].ID == "" && i < len(collectedToolCalls))`
contains an always-true bound where a positional test was evidently
intended, so a continuation fragment with an empty id never merges into a
populated entry: it is appended as a fresh entry instead, splitting one
logical tool call in two. The theorems below evaluate the code's merge at
the failing inputs. -/

/-- C1: with in-progress list `[{id "x", name "f", args "a"}]`, the
continuation fragment `{id "", args "b"}` (index 0 of its delta) is
appended as a new entry by the code, instead of merging positionally into
entry 0 to give arguments `"ab"` as the claim states. -/
theorem claim1_merge_identity_failing_input :
    accumToolCall (accumToolCall [] ⟨"x", "function", ⟨"f", "a"⟩⟩) ⟨"", "", ⟨"", "b"⟩⟩
      = [⟨"x", "function", ⟨"f", "a"⟩⟩, ⟨"", "", ⟨"", "b"⟩⟩]
  ∧ accumToolCall (accumToolCall [] ⟨"x", "function", ⟨"f", "a"⟩⟩) ⟨"", "", ⟨"", "b"⟩⟩
      ≠ [⟨"x", "function", ⟨"f", "ab"⟩⟩] := by
  decide

/-- A one-tool-call delta chunk used by the claim-2 evaluation. -/
def deltaChunk (tc : ToolCall) : StreamChunk :=
  { Choices := [{ Index := 0, Delta := some { ToolCalls := [tc] } }] }

/-- C2: the turn consisting of the single tool call
`{id "x", name "f", args "ab"}` delivered in one fragment accumulates to
that call, but delivered split in two fragments (the continuation carrying
an empty id, as the spec's positional-correlation rule allows) it
accumulates to two distinct in-progress entries: the merge is not
fragmentation-invariant as the code stands. -/
theorem claim2_fragmentation_failing_input :
    (([deltaChunk ⟨"x", "function", ⟨"f", "ab"⟩⟩].foldl accumChunk ⟨"", []⟩).toolCalls
      = [⟨"x", "function", ⟨"f", "ab"⟩⟩])
  ∧ (([deltaChunk ⟨"x", "function", ⟨"f", "a"⟩⟩,
       deltaChunk ⟨"", "", ⟨"", "b"⟩⟩].foldl accumChunk ⟨"", []⟩).toolCalls
      = [⟨"x", "function", ⟨"f", "a"⟩⟩, ⟨"", "", ⟨"", "b"⟩⟩])
  ∧ ([deltaChunk ⟨"x", "function", ⟨"f", "ab"⟩⟩].foldl accumChunk ⟨"", []⟩).toolCalls
      ≠ ([deltaChunk ⟨"x", "function", ⟨"f", "a"⟩⟩,
          deltaChunk ⟨"", "", ⟨"", "b"⟩⟩].foldl accumChunk ⟨"", []⟩).toolCalls := by
  decide

/-- C3: an argument string split at arbitrary offsets across fragments
that all carry the same non-empty id reassembles, through the accumulator,
to exactly the unsplit string, held by a single in-progress entry. -/
theorem claim3_split_arguments_reassemble (s cid : String) (fs : List ToolCall)
    (hne : fs ≠ []) (hcid : cid ≠ "") (hids : ∀ f ∈ fs, f.ID = cid)
    (hjoin : concatenatedArguments fs = s) :
    ∃ tc, List.foldl accumToolCall [] fs = [tc] ∧ tc.Function.Arguments = s := by
  match fs, hne with
  | f0 :: rest, _ =>
    have hf0 : f0.ID = cid := hids f0 (List.mem_cons_self f0 rest)
    obtain ⟨tc, h1, _, h3⟩ :=
      accumToolCall_single_id cid hcid rest f0 hf0
        (fun g hg => hids g (List.mem_cons_of_mem f0 hg))
    refine ⟨tc, ?_, ?_⟩
    · rw [List.foldl_cons]
      have : accumToolCall [] f0 = [f0] := rfl
      rw [this, h1]
    · rw [h3, ← hjoin]
      rfl

/-- C3 witness: the argument string `"ab,cd"` split as `"ab,"` / `"cd"`
across two fragments with shared id `"call_1"` reassembles to `"ab,cd"`. -/
theorem claim3_witness :
    (([⟨"call_1", "function", ⟨"f", "ab,"⟩⟩, ⟨"call_1", "", ⟨"", "cd"⟩⟩] : List ToolCall) ≠ []
      ∧ ("call_1" : String) ≠ "")
  ∧ ∃ tc, List.foldl accumToolCall []
        [⟨"call_1", "function", ⟨"f", "ab,"⟩⟩, ⟨"call_1", "", ⟨"", "cd"⟩⟩] = [tc]
      ∧ tc.Function.Arguments = "ab,cd" :=
  ⟨⟨by decide, by decide⟩,
   claim3_split_arguments_reassemble "ab,cd" "call_1"
     [⟨"call_1", "function", ⟨"f", "ab,"⟩⟩, ⟨"call_1", "", ⟨"", "cd"⟩⟩]
     (by decide) (by decide) (by decide) (by decide)⟩

/-!
### C9 — error versus buffered fragments (edgee.go:518-534, 576-628)

The spec (§5) requires the consumer to drain all currently-buffered
fragments before treating the error channel as authoritative. The code's
plain two-case `select` resolves uniformly among ready cases, so a
schedule that takes the error case while a fragment is still buffered
surfaces the error immediately and the fragment is never processed. -/

/-- A concrete buffered fragment for the claim-9 evaluation. -/
def bufferedChunk : StreamChunk :=
  { ID := "chunk-9"
    Choices := [{ Index := 0, Delta := some { Content := some "tail" } }] }

/-- C9: with one fragment still buffered and a read error buffered on the
error channel, the schedule that resolves the select in favour of the
error case surfaces the error with the fragment unprocessed — the consumer
does not drain buffered fragments before honouring the error. -/
theorem claim9_error_discards_buffered_fragment :
    selectConsume (fun _ => false) 0 [bufferedChunk] (some "error reading stream")
      = ([], some "error reading stream")
  ∧ ([bufferedChunk] : List StreamChunk) ≠ [] := by
  decide

/-- The drain happens only under a fragment-priority schedule: a schedule
that takes the chunk case while fragments remain delivers every buffered
fragment and only then surfaces the error. -/
lemma selectConsume_priority_drains (e : String) :
    ∀ (buf : List StreamChunk) (k : Nat) (schedule : Nat → Bool),
      (∀ i, i < buf.length → schedule (k + i) = true) →
      schedule (k + buf.length) = false →
      selectConsume schedule k buf (some e) = (buf, some e)
  | [], k, schedule, _, hend => by
      have hk : schedule k = false := by simpa using hend
      simp [selectConsume, hk]
  | c :: rest, k, schedule, htrue, hend => by
      have hk : schedule k = true := by simpa using htrue 0 (by simp)
      have ih := selectConsume_priority_drains e rest (k + 1) schedule
        (fun i hi => by
          have h2 : k + 1 + i = k + (i + 1) := by omega
          rw [h2]
          exact htrue (i + 1) (by simp only [List.length_cons]; exact Nat.succ_lt_succ hi))
        (by
          have h3 : k + 1 + rest.length = k + (c :: rest).length := by
            simp only [List.length_cons]
            omega
          rw [h3]
          exact hend)
      simp [selectConsume, hk, ih]

/-!
### C10 — non-positive iteration budget (edgee.go:392, 474) -/

/-- C10: a non-positive `MaxIterations` makes the `for` loop of
`sendWithAutoTools` run zero times: the call returns the zero-valued
response and the budget-exhaustion failure naming the configured limit,
with an empty trace — no transport request is issued and no tool handler
runs. -/
theorem claim10_nonpositive_budget_fails_immediately
    (transport : List Message → SendResponse × Option String)
    (parseArgs : String → Except String Args)
    (text : String) (tools : List (String × ToolHandler)) (maxIter : Int)
    (hle : maxIter ≤ 0) :
    sendWithAutoTools transport parseArgs ⟨text, tools, maxIter⟩
      = ⟨emptyResponse, some (budgetMessage maxIter), []⟩ := by
  have h0 : maxIter.toNat = 0 := Int.toNat_of_nonpos hle
  simp only [sendWithAutoTools, h0, sendLoop]

/-- C10 witness: at `MaxIterations = 0` with a concrete transport, the
call fails immediately with the limit-naming message and an empty trace. -/
theorem claim10_witness :
    sendWithAutoTools (fun _ => ({}, none)) (fun _ => Except.error "EOF") ⟨"hi", [], 0⟩
      = ⟨emptyResponse, some (budgetMessage 0), []⟩ :=
  claim10_nonpositive_budget_fails_immediately (fun _ => ({}, none))
    (fun _ => Except.error "EOF") "hi" [] 0 (by decide)

/-!
### C8 — usage accumulation (edgee.go:406-421) -/

/-- C8: a two-iteration run (first response requests tool calls and
reports usage `u1`, second requests none and reports `u2`) terminates
successfully and returns the component-wise running sum `u1 + u2` as the
final usage. -/
theorem claim8_usage_summed_componentwise
    (transport : List Message → SendResponse × Option String)
    (handlers : String → Option ToolHandler)
    (parseArgs : String → Except String Args)
    (maxIter : Int) (n : Nat) (m0 : List Message)
    (r1 r2 : SendResponse) (u1 u2 : Usage)
    (h1 : transport m0 = (r1, none))
    (h1u : r1.Usage = some u1)
    (h1t : r1.ToolCalls ≠ [])
    (h2 : transport
        ((match r1.MessageContent with
          | some m => m0 ++ [m]
          | none => m0)
         ++ r1.ToolCalls.map (toolResultMessage handlers parseArgs)) = (r2, none))
    (h2u : r2.Usage = some u2)
    (h2t : r2.ToolCalls = []) :
    (sendLoop transport handlers parseArgs maxIter (n + 2) m0 none []).response.Usage
      = some ⟨u1.PromptTokens + u2.PromptTokens,
              u1.CompletionTokens + u2.CompletionTokens,
              u1.TotalTokens + u2.TotalTokens⟩
  ∧ (sendLoop transport handlers parseArgs maxIter (n + 2) m0 none []).error = none := by
  have e2 : n + 2 = (n + 1) + 1 := rfl
  rw [e2]
  simp only [sendLoop, h1, h1u, if_neg h1t]
  simp only [show n + 1 = n + 1 from rfl, sendLoop, h2, h2u, if_pos h2t]
  simp [addUsage]

/-- C8 witness data: first iteration requests a tool call and reports
usage 10/5/15; second requests none and reports 8/3/11. -/
def w8Call : ToolCall := ⟨"call_1", "function", ⟨"get_weather", "\x7b\x7d"⟩⟩

/-- C8 witness data: the first iteration's response. -/
def w8R1 : SendResponse :=
  { Choices := [{ Index := 0
                  Message := some { Role := "assistant", Content := "", ToolCalls := [w8Call] }
                  FinishReason := some "tool_calls" }]
    Usage := some ⟨10, 5, 15⟩ }

/-- C8 witness data: the second iteration's response. -/
def w8R2 : SendResponse :=
  { Choices := [{ Index := 0
                  Message := some { Role := "assistant", Content := "It is sunny." }
                  FinishReason := some "stop" }]
    Usage := some ⟨8, 3, 11⟩ }

/-- C8 witness data: a transport serving `w8R1` to the opening one-message
history and `w8R2` afterwards. -/
def w8Transport : List Message → SendResponse × Option String :=
  fun msgs => if msgs.length ≤ 1 then (w8R1, none) else (w8R2, none)

/-- C8 witness data: the registered handler and argument parser. -/
def w8Handlers : String → Option ToolHandler :=
  fun name => if name = "get_weather" then some (fun _ => Except.ok "\"sunny\"") else none

/-- C8 witness data: `json.Unmarshal` succeeding with no keys. -/
def w8Parse : String → Except String Args := fun _ => Except.ok []

/-- C8 witness: usage reports of 10/5/15 and 8/3/11 across the two
iterations produce 18/8/26 in the final result. -/
theorem claim8_witness :
    (sendLoop w8Transport w8Handlers w8Parse 10 2 [userMessage "weather?"] none []).response.Usage
      = some ⟨18, 8, 26⟩ := by
  have h := claim8_usage_summed_componentwise w8Transport w8Handlers w8Parse 10 0
    [userMessage "weather?"] w8R1 w8R2 ⟨10, 5, 15⟩ ⟨8, 3, 11⟩
    (by decide) (by decide) (by decide) (by decide) (by decide) (by decide)
  exact h.1.trans (by norm_num)

/-!
### C5 — the tool executor's per-call contract (edgee.go:430-471, 644-692) -/

/-- C5: for every assembled tool call, the executor produces exactly one
tool-role message correlated to the call's id; in the three failure cases
(unknown tool, argument parse failure, handler failure) the content is the
structured error payload; the per-call messages appended by an iteration
are one per call, correlated in order, the streaming executor appending
the identical messages; and tool-level failures never surface as a
caller-visible failure of the loop (the loop's error is only a transport
error — absent here — or budget exhaustion). -/
theorem claim5_tool_executor_contract
    (handlers : String → Option ToolHandler)
    (parseArgs : String → Except String Args) :
    (∀ tc : ToolCall,
        (toolResultMessage handlers parseArgs tc).Role = "tool"
      ∧ (toolResultMessage handlers parseArgs tc).ToolCallID = some tc.ID)
  ∧ (∀ tc : ToolCall, handlers tc.Function.Name = none →
        (toolResultMessage handlers parseArgs tc).Content
          = "\x7b\"error\": \"Unknown tool: " ++ tc.Function.Name ++ "\"\x7d")
  ∧ (∀ (tc : ToolCall) (handler : ToolHandler) (e : String),
        handlers tc.Function.Name = some handler →
        parseArgs tc.Function.Arguments = Except.error e →
        (toolResultMessage handlers parseArgs tc).Content
          = "\x7b\"error\": \"Failed to parse arguments: " ++ e ++ "\"\x7d")
  ∧ (∀ (tc : ToolCall) (handler : ToolHandler) (args : Args) (e : String),
        handlers tc.Function.Name = some handler →
        parseArgs tc.Function.Arguments = Except.ok args →
        handler args = Except.error e →
        (toolResultMessage handlers parseArgs tc).Content
          = "\x7b\"error\": \"Tool execution failed: " ++ e ++ "\"\x7d")
  ∧ (∀ calls : List ToolCall,
        (calls.map (toolResultMessage handlers parseArgs)).map (fun m => m.ToolCallID)
          = calls.map (fun tc => some tc.ID)
      ∧ (execToolsStreaming handlers parseArgs calls).2
          = calls.map (toolResultMessage handlers parseArgs))
  ∧ (∀ (transport : List Message → SendResponse × Option String) (maxIter : Int)
        (fuel : Nat) (msgs : List Message) (tu : Option Usage) (tr : List TraceEv),
        (∀ m, (transport m).2 = none) →
        (sendLoop transport handlers parseArgs maxIter fuel msgs tu tr).error = none
      ∨ (sendLoop transport handlers parseArgs maxIter fuel msgs tu tr).error
          = some (budgetMessage maxIter)) := by
  have role_id : ∀ tc : ToolCall,
      (toolResultMessage handlers parseArgs tc).Role = "tool"
    ∧ (toolResultMessage handlers parseArgs tc).ToolCallID = some tc.ID := by
    intro tc
    rcases hh : handlers tc.Function.Name with _ | handler
    · simp [toolResultMessage, hh]
    · rcases hp : parseArgs tc.Function.Arguments with e | args
      · simp [toolResultMessage, hh, hp]
      · rcases hr : handler args with e | out <;>
          simp [toolResultMessage, hh, hp, hr]
  refine ⟨role_id, ?_, ?_, ?_, ?_, ?_⟩
  · intro tc hh
    simp [toolResultMessage, hh]
  · intro tc handler e hh hp
    simp [toolResultMessage, hh, hp]
  · intro tc handler args e hh hp hr
    simp [toolResultMessage, hh, hp, hr]
  · intro calls
    constructor
    · induction calls with
      | nil => rfl
      | cons tc rest ih => simp [ih, (role_id tc).2]
    · induction calls with
      | nil => rfl
      | cons tc rest ih => simp [execToolsStreaming, ih]
  · intro transport maxIter fuel
    induction fuel with
    | zero =>
        intro msgs tu tr hok
        right
        rfl
    | succ n ih =>
        intro msgs tu tr hok
        simp only [sendLoop, hok]
        by_cases hc : (transport msgs).1.ToolCalls = []
        · simp [hc]
        · simp only [if_neg hc]
          exact ih _ _ _ hok

/-! ## Step lemmas for the two loops -/

/-- One non-streaming iteration whose response carries tool calls:
usage is accumulated, the assistant message and one tool-result message
per call are appended, and the loop recurses. -/
lemma sendLoop_step_tools
    (transport : List Message → SendResponse × Option String)
    (handlers : String → Option ToolHandler)
    (parseArgs : String → Except String Args)
    (maxIter : Int) (fuel : Nat) (msgs : List Message)
    (tu : Option Usage) (tr : List TraceEv)
    (h1 : (transport msgs).2 = none)
    (h2 : (transport msgs).1.ToolCalls ≠ []) :
    sendLoop transport handlers parseArgs maxIter (fuel + 1) msgs tu tr
      = sendLoop transport handlers parseArgs maxIter fuel
          ((match (transport msgs).1.MessageContent with
            | some m => msgs ++ [m]
            | none => msgs)
           ++ (transport msgs).1.ToolCalls.map (toolResultMessage handlers parseArgs))
          (addUsage tu (transport msgs).1.Usage)
          (tr ++ [TraceEv.request msgs] ++ (transport msgs).1.ToolCalls.map TraceEv.exec) := by
  simp only [sendLoop, h1, if_neg h2]

/-- One streaming iteration with no transport error whose accumulated turn
carries tool calls: chunk events, then the per-call tool events, then the
iteration-complete event, then the rest of the run. -/
lemma streamLoop_step_tools
    (streamReq : List Message → List StreamChunk × Option String)
    (handlers : String → Option ToolHandler)
    (parseArgs : String → Except String Args)
    (maxIter : Int) (fuel : Nat) (iteration : Int) (msgs : List Message)
    (h1 : (streamReq msgs).2 = none)
    (h2 : (((streamReq msgs).1.foldl accumChunk ⟨"", []⟩).toolCalls) ≠ []) :
    streamLoop streamReq handlers parseArgs maxIter (fuel + 1) iteration msgs
      = { events := ((streamReq msgs).1.map StreamEvent.chunk)
            ++ (execToolsStreaming handlers parseArgs
                 (((streamReq msgs).1.foldl accumChunk ⟨"", []⟩).toolCalls)).1
            ++ [StreamEvent.iterationComplete (iteration + 1)]
            ++ (streamLoop streamReq handlers parseArgs maxIter fuel (iteration + 1)
                 ((msgs ++
                   [{ Role := "assistant"
                      Content := ((streamReq msgs).1.foldl accumChunk ⟨"", []⟩).content
                      ToolCalls := ((streamReq msgs).1.foldl accumChunk ⟨"", []⟩).toolCalls }])
                  ++ (execToolsStreaming handlers parseArgs
                       (((streamReq msgs).1.foldl accumChunk ⟨"", []⟩).toolCalls)).2)).events
          errOut := (streamLoop streamReq handlers parseArgs maxIter fuel (iteration + 1)
            ((msgs ++
              [{ Role := "assistant"
                 Content := ((streamReq msgs).1.foldl accumChunk ⟨"", []⟩).content
                 ToolCalls := ((streamReq msgs).1.foldl accumChunk ⟨"", []⟩).toolCalls }])
             ++ (execToolsStreaming handlers parseArgs
                  (((streamReq msgs).1.foldl accumChunk ⟨"", []⟩).toolCalls)).2)).errOut
          requests := 1 + (streamLoop streamReq handlers parseArgs maxIter fuel (iteration + 1)
            ((msgs ++
              [{ Role := "assistant"
                 Content := ((streamReq msgs).1.foldl accumChunk ⟨"", []⟩).content
                 ToolCalls := ((streamReq msgs).1.foldl accumChunk ⟨"", []⟩).toolCalls }])
             ++ (execToolsStreaming handlers parseArgs
                  (((streamReq msgs).1.foldl accumChunk ⟨"", []⟩).toolCalls)).2)).requests } := by
  simp only [streamLoop, h1, if_neg h2]

/-- One streaming iteration with no transport error and no accumulated
tool calls: only the chunk events are emitted and the run ends cleanly. -/
lemma streamLoop_step_done
    (streamReq : List Message → List StreamChunk × Option String)
    (handlers : String → Option ToolHandler)
    (parseArgs : String → Except String Args)
    (maxIter : Int) (fuel : Nat) (iteration : Int) (msgs : List Message)
    (h1 : (streamReq msgs).2 = none)
    (h2 : (((streamReq msgs).1.foldl accumChunk ⟨"", []⟩).toolCalls) = []) :
    streamLoop streamReq handlers parseArgs maxIter (fuel + 1) iteration msgs
      = { events := ((streamReq msgs).1.map StreamEvent.chunk)
          errOut := none
          requests := 1 } := by
  simp only [streamLoop, h1, if_pos h2]

/-- One streaming iteration cut short by a transport error: the chunk
events delivered before the error are emitted, the error is surfaced, and
the run ends. -/
lemma streamLoop_step_err
    (streamReq : List Message → List StreamChunk × Option String)
    (handlers : String → Option ToolHandler)
    (parseArgs : String → Except String Args)
    (maxIter : Int) (fuel : Nat) (iteration : Int) (msgs : List Message)
    (e : String) (h1 : (streamReq msgs).2 = some e) :
    streamLoop streamReq handlers parseArgs maxIter (fuel + 1) iteration msgs
      = { events := ((streamReq msgs).1.map StreamEvent.chunk)
          errOut := some e
          requests := 1 } := by
  simp only [streamLoop, h1]

/-- Requests recorded in a concatenated trace. -/
lemma countRequests_append :
    ∀ a b : List TraceEv, countRequests (a ++ b) = countRequests a + countRequests b
  | [], b => by simp [countRequests]
  | TraceEv.request m :: rest, b => by
      simp [countRequests, countRequests_append rest b]
      omega
  | TraceEv.exec tc :: rest, b => by
      simp [countRequests, countRequests_append rest b]

/-- Tool-execution trace events record no request. -/
lemma countRequests_execMap (calls : List ToolCall) :
    countRequests (calls.map TraceEv.exec) = 0 := by
  induction calls with
  | nil => rfl
  | cons tc rest ih => simpa [countRequests] using ih

/-!
### C6 — the SSE frame parser (edgee.go:745-776) -/

/-- C6: the frame parser skips blank lines and non-marker lines, stops
permanently at the `[DONE]` sentinel, silently skips payloads that fail to
decode, yields decoded payloads in order; in particular one malformed
payload between two valid ones yields exactly the two valid fragments, in
order, with no error. -/
theorem claim6_frame_parsing (decode : String → Option StreamChunk) :
    (∀ (line : String) (rest : List String), trimSpace line = "" →
        parseSSELines decode (line :: rest) = parseSSELines decode rest)
  ∧ (∀ (line : String) (rest : List String), trimSpace line ≠ "" →
        hasDataMarker (trimSpace line) = false →
        parseSSELines decode (line :: rest) = parseSSELines decode rest)
  ∧ (∀ (line : String) (rest : List String), trimSpace line ≠ "" →
        hasDataMarker (trimSpace line) = true →
        dropDataMarker (trimSpace line) = "[DONE]" →
        parseSSELines decode (line :: rest) = [])
  ∧ (∀ (line : String) (rest : List String), trimSpace line ≠ "" →
        hasDataMarker (trimSpace line) = true →
        dropDataMarker (trimSpace line) ≠ "[DONE]" →
        decode (dropDataMarker (trimSpace line)) = none →
        parseSSELines decode (line :: rest) = parseSSELines decode rest)
  ∧ (∀ (line : String) (rest : List String) (c : StreamChunk), trimSpace line ≠ "" →
        hasDataMarker (trimSpace line) = true →
        dropDataMarker (trimSpace line) ≠ "[DONE]" →
        decode (dropDataMarker (trimSpace line)) = some c →
        parseSSELines decode (line :: rest) = c :: parseSSELines decode rest)
  ∧ (∀ c1 c2 : StreamChunk,
        decode "alpha" = some c1 → decode "bad" = none → decode "beta" = some c2 →
        parseSSELines decode ["data: alpha", "data: bad", "data: beta"] = [c1, c2]) := by
  refine ⟨?_, ?_, ?_, ?_, ?_, ?_⟩
  · intro line rest h
    simp [parseSSELines, h]
  · intro line rest h1 h2
    simp [parseSSELines, h1, h2]
  · intro line rest h1 h2 h3
    simp [parseSSELines, h1, h2, h3]
  · intro line rest h1 h2 h3 h4
    simp [parseSSELines, h1, h2, h3, h4]
  · intro line rest c h1 h2 h3 h4
    simp [parseSSELines, h1, h2, h3, h4]
  · intro c1 c2 h1 h2 h3
    have t1 : trimSpace "data: alpha" = "data: alpha" := by decide
    have t2 : trimSpace "data: bad" = "data: bad" := by decide
    have t3 : trimSpace "data: beta" = "data: beta" := by decide
    have n1 : ("data: alpha" : String) ≠ "" := by decide
    have n2 : ("data: bad" : String) ≠ "" := by decide
    have n3 : ("data: beta" : String) ≠ "" := by decide
    have m1 : hasDataMarker "data: alpha" = true := by decide
    have m2 : hasDataMarker "data: bad" = true := by decide
    have m3 : hasDataMarker "data: beta" = true := by decide
    have d1 : dropDataMarker "data: alpha" = "alpha" := by decide
    have d2 : dropDataMarker "data: bad" = "bad" := by decide
    have d3 : dropDataMarker "data: beta" = "beta" := by decide
    have s1 : ("alpha" : String) ≠ "[DONE]" := by decide
    have s2 : ("bad" : String) ≠ "[DONE]" := by decide
    have s3 : ("beta" : String) ≠ "[DONE]" := by decide
    simp [parseSSELines, t1, t2, t3, n1, n2, n3, m1, m2, m3, d1, d2, d3,
      s1, s2, s3, h1, h2, h3]

/-- C6 witness data: two recognisable decoded fragments. -/
def w6C1 : StreamChunk := { ID := "w6-1" }

/-- C6 witness data: the second decoded fragment. -/
def w6C2 : StreamChunk := { ID := "w6-2" }

/-- C6 witness data: a decoder accepting exactly the payloads `alpha` and
`beta`. -/
def w6Decode : String → Option StreamChunk :=
  fun p => if p = "alpha" then some w6C1 else if p = "beta" then some w6C2 else none

/-- C6 witness: a malformed payload between two valid ones yields exactly
the two valid fragments in order, and a blank line followed by the
`[DONE]` sentinel yields nothing, even with a further valid line after the
sentinel. -/
theorem claim6_witness :
    parseSSELines w6Decode ["data: alpha", "data: bad", "data: beta"] = [w6C1, w6C2]
  ∧ parseSSELines w6Decode ["", "data: [DONE]", "data: alpha"] = [] := by
  have h := claim6_frame_parsing w6Decode
  constructor
  · exact h.2.2.2.2.2 w6C1 w6C2 (by decide) (by decide) (by decide)
  · have ha := h.1 "" ["data: [DONE]", "data: alpha"] (by decide)
    have hc := h.2.2.1 "data: [DONE]" ["data: alpha"] (by decide) (by decide) (by decide)
    rw [ha, hc]

/-- C5 witness data: a registry holding only the tool `add`, whose handler
fails on an empty argument map and succeeds otherwise. -/
def w5Handlers : String → Option ToolHandler :=
  fun name =>
    if name = "add" then
      some (fun args =>
        match args with
        | [] => Except.error "missing operands"
        | _ => Except.ok "3")
    else none

/-- C5 witness data: an argument parser accepting `\x7b\x7d` (as the empty
map) and `good` (as a one-key map), rejecting everything else. -/
def w5Parse : String → Except String Args :=
  fun p =>
    if p = "\x7b\x7d" then Except.ok []
    else if p = "good" then Except.ok [("a", "1")]
    else Except.error "invalid character"

/-- C5 witness: at concrete calls exercising the unknown-tool, parse-
failure, handler-failure and success cases, the executor produces one
correlated tool message each with the structured error payloads, and a
tool-failing run never surfaces those failures as the loop's error. -/
theorem claim5_witness :
    ((toolResultMessage w5Handlers w5Parse ⟨"call_u", "function", ⟨"mystery", "\x7b\x7d"⟩⟩).Role
        = "tool"
      ∧ (toolResultMessage w5Handlers w5Parse ⟨"call_u", "function", ⟨"mystery", "\x7b\x7d"⟩⟩).ToolCallID
        = some "call_u")
  ∧ (toolResultMessage w5Handlers w5Parse ⟨"call_u", "function", ⟨"mystery", "\x7b\x7d"⟩⟩).Content
      = "\x7b\"error\": \"Unknown tool: mystery\"\x7d"
  ∧ (toolResultMessage w5Handlers w5Parse ⟨"call_p", "function", ⟨"add", "notjson"⟩⟩).Content
      = "\x7b\"error\": \"Failed to parse arguments: invalid character\"\x7d"
  ∧ (toolResultMessage w5Handlers w5Parse ⟨"call_h", "function", ⟨"add", "\x7b\x7d"⟩⟩).Content
      = "\x7b\"error\": \"Tool execution failed: missing operands\"\x7d"
  ∧ ((sendLoop (fun _ => (w8R1, none)) w5Handlers w5Parse 1 1
        [userMessage "q"] none []).error = none
      ∨ (sendLoop (fun _ => (w8R1, none)) w5Handlers w5Parse 1 1
          [userMessage "q"] none []).error = some (budgetMessage 1)) := by
  have h := claim5_tool_executor_contract w5Handlers w5Parse
  refine ⟨h.1 _, h.2.1 _ rfl, h.2.2.1 _ _ "invalid character" rfl rfl,
    h.2.2.2.1 _ _ [] "missing operands" rfl rfl rfl,
    h.2.2.2.2.2 _ 1 1 [userMessage "q"] none [] (fun m => rfl)⟩

/-!
### C4 — `maxIterations = 2` with tool calls on every iteration
(edgee.go:392-475, 560-702) -/

/-- C4: with a budget of 2 and oracles whose every response requests tool
calls, both loops terminate with the budget-exhaustion failure naming the
limit, issue exactly 2 transport requests, and do so exactly after the 2nd
iteration's tool calls have been executed: the non-streaming trace is
request, first-iteration executions, request, second-iteration executions
(nothing follows), the streaming run ends with the 2nd iteration's tool
events and `iteration_complete 2`, and the non-streaming response value is
the zero value. -/
theorem claim4_budget_exhaustion_after_two_iterations
    (transport : List Message → SendResponse × Option String)
    (streamReq : List Message → List StreamChunk × Option String)
    (parseArgs : String → Except String Args)
    (text : String) (tools : List (String × ToolHandler))
    (hok : ∀ m, (transport m).2 = none)
    (htc : ∀ m, (transport m).1.ToolCalls ≠ [])
    (hsok : ∀ m, (streamReq m).2 = none)
    (hstc : ∀ m, (((streamReq m).1.foldl accumChunk ⟨"", []⟩).toolCalls) ≠ []) :
    (sendWithAutoTools transport parseArgs ⟨text, tools, 2⟩).error = some (budgetMessage 2)
  ∧ (sendWithAutoTools transport parseArgs ⟨text, tools, 2⟩).response = emptyResponse
  ∧ countRequests (sendWithAutoTools transport parseArgs ⟨text, tools, 2⟩).trace = 2
  ∧ (∃ m1,
      (sendWithAutoTools transport parseArgs ⟨text, tools, 2⟩).trace
        = [TraceEv.request [userMessage text]]
          ++ ((transport [userMessage text]).1.ToolCalls).map TraceEv.exec
          ++ [TraceEv.request m1]
          ++ ((transport m1).1.ToolCalls).map TraceEv.exec)
  ∧ (streamWithAutoTools streamReq parseArgs ⟨text, tools, 2⟩).errOut = some (budgetMessage 2)
  ∧ (streamWithAutoTools streamReq parseArgs ⟨text, tools, 2⟩).requests = 2
  ∧ (∃ evs1 m1,
      (streamWithAutoTools streamReq parseArgs ⟨text, tools, 2⟩).events
        = evs1 ++ ((streamReq m1).1.map StreamEvent.chunk)
          ++ (execToolsStreaming (lookupHandler tools) parseArgs
               (((streamReq m1).1.foldl accumChunk ⟨"", []⟩).toolCalls)).1
          ++ [StreamEvent.iterationComplete 2]
      ∧ (((streamReq m1).1.foldl accumChunk ⟨"", []⟩).toolCalls) ≠ []) := by
  have e0 : sendWithAutoTools transport parseArgs ⟨text, tools, 2⟩
      = sendLoop transport (lookupHandler tools) parseArgs 2 2
          [userMessage text] none [] := rfl
  have s0 : streamWithAutoTools streamReq parseArgs ⟨text, tools, 2⟩
      = streamLoop streamReq (lookupHandler tools) parseArgs 2 2 0
          [userMessage text] := rfl
  have f2 : (2 : Nat) = 0 + 1 + 1 := rfl
  have stepS : ∀ (fuel : Nat) (msgs : List Message) (tu : Option Usage) (tr : List TraceEv),
      sendLoop transport (lookupHandler tools) parseArgs 2 (fuel + 1) msgs tu tr
        = sendLoop transport (lookupHandler tools) parseArgs 2 fuel
            ((match (transport msgs).1.MessageContent with
              | some m => msgs ++ [m]
              | none => msgs)
             ++ (transport msgs).1.ToolCalls.map (toolResultMessage (lookupHandler tools) parseArgs))
            (addUsage tu (transport msgs).1.Usage)
            (tr ++ [TraceEv.request msgs] ++ (transport msgs).1.ToolCalls.map TraceEv.exec) :=
    fun fuel msgs tu tr =>
      sendLoop_step_tools transport (lookupHandler tools) parseArgs 2 fuel msgs tu tr
        (hok msgs) (htc msgs)
  have stepT : ∀ (fuel : Nat) (iteration : Int) (msgs : List Message),
      streamLoop streamReq (lookupHandler tools) parseArgs 2 (fuel + 1) iteration msgs
        = { events := ((streamReq msgs).1.map StreamEvent.chunk)
              ++ (execToolsStreaming (lookupHandler tools) parseArgs
                   (((streamReq msgs).1.foldl accumChunk ⟨"", []⟩).toolCalls)).1
              ++ [StreamEvent.iterationComplete (iteration + 1)]
              ++ (streamLoop streamReq (lookupHandler tools) parseArgs 2 fuel (iteration + 1)
                   ((msgs ++
                     [{ Role := "assistant"
                        Content := ((streamReq msgs).1.foldl accumChunk ⟨"", []⟩).content
                        ToolCalls := ((streamReq msgs).1.foldl accumChunk ⟨"", []⟩).toolCalls }])
                    ++ (execToolsStreaming (lookupHandler tools) parseArgs
                         (((streamReq msgs).1.foldl accumChunk ⟨"", []⟩).toolCalls)).2)).events
            errOut := (streamLoop streamReq (lookupHandler tools) parseArgs 2 fuel (iteration + 1)
              ((msgs ++
                [{ Role := "assistant"
                   Content := ((streamReq msgs).1.foldl accumChunk ⟨"", []⟩).content
                   ToolCalls := ((streamReq msgs).1.foldl accumChunk ⟨"", []⟩).toolCalls }])
               ++ (execToolsStreaming (lookupHandler tools) parseArgs
                    (((streamReq msgs).1.foldl accumChunk ⟨"", []⟩).toolCalls)).2)).errOut
            requests := 1 + (streamLoop streamReq (lookupHandler tools) parseArgs 2 fuel (iteration + 1)
              ((msgs ++
                [{ Role := "assistant"
                   Content := ((streamReq msgs).1.foldl accumChunk ⟨"", []⟩).content
                   ToolCalls := ((streamReq msgs).1.foldl accumChunk ⟨"", []⟩).toolCalls }])
               ++ (execToolsStreaming (lookupHandler tools) parseArgs
                    (((streamReq msgs).1.foldl accumChunk ⟨"", []⟩).toolCalls)).2)).requests } :=
    fun fuel iteration msgs =>
      streamLoop_step_tools streamReq (lookupHandler tools) parseArgs 2 fuel iteration msgs
        (hsok msgs) (hstc msgs)
  refine ⟨?_, ?_, ?_, ?_, ?_, ?_, ?_⟩
  · rw [e0, f2, stepS, stepS]
    rfl
  · rw [e0, f2, stepS, stepS]
    rfl
  · rw [e0, f2, stepS, stepS]
    show countRequests (sendLoop transport (lookupHandler tools) parseArgs 2 0 _ _ _).trace
      = 0 + 1 + 1
    simp only [sendLoop]
    simp [countRequests_append, countRequests_execMap, countRequests]
  · refine ⟨(match (transport [userMessage text]).1.MessageContent with
        | some m => [userMessage text] ++ [m]
        | none => [userMessage text])
       ++ (transport [userMessage text]).1.ToolCalls.map
            (toolResultMessage (lookupHandler tools) parseArgs), ?_⟩
    rw [e0, f2, stepS, stepS]
    show (sendLoop transport (lookupHandler tools) parseArgs 2 0 _ _ _).trace = _
    simp only [sendLoop]
    simp [List.append_assoc]
  · rw [s0, f2, stepT, stepT]
    rfl
  · rw [s0, f2, stepT, stepT]
    rfl
  · refine ⟨((streamReq [userMessage text]).1.map StreamEvent.chunk)
        ++ (execToolsStreaming (lookupHandler tools) parseArgs
             (((streamReq [userMessage text]).1.foldl accumChunk ⟨"", []⟩).toolCalls)).1
        ++ [StreamEvent.iterationComplete 1],
      ([userMessage text] ++
        [{ Role := "assistant"
           Content := ((streamReq [userMessage text]).1.foldl accumChunk ⟨"", []⟩).content
           ToolCalls := ((streamReq [userMessage text]).1.foldl accumChunk ⟨"", []⟩).toolCalls }])
       ++ (execToolsStreaming (lookupHandler tools) parseArgs
            (((streamReq [userMessage text]).1.foldl accumChunk ⟨"", []⟩).toolCalls)).2,
      ?_, hstc _⟩
    rw [s0, f2, stepT, stepT]
    show (_ ++ _ ++ [StreamEvent.iterationComplete (0 + 1)]
      ++ ((_ ++ _ ++ [StreamEvent.iterationComplete (0 + 1 + 1)]
          ++ (streamLoop streamReq (lookupHandler tools) parseArgs 2 0 _ _).events))) = _
    simp only [streamLoop]
    norm_num

/-- C4 witness data: a tool call requested on every iteration. -/
def w4Call : ToolCall := ⟨"call_w4", "function", ⟨"ping", "\x7b\x7d"⟩⟩

/-- C4 witness data: a non-streaming response always requesting `w4Call`. -/
def w4Resp : SendResponse :=
  { Choices := [{ Index := 0
                  Message := some { Role := "assistant", Content := "", ToolCalls := [w4Call] }
                  FinishReason := some "tool_calls" }] }

/-- C4 witness data: a transport answering every request with `w4Resp`. -/
def w4Transport : List Message → SendResponse × Option String := fun _ => (w4Resp, none)

/-- C4 witness data: a streaming transport delivering one delta carrying
`w4Call` on every request. -/
def w4Stream : List Message → List StreamChunk × Option String :=
  fun _ => ([deltaChunk w4Call], none)

/-- C4 witness: with budget 2 and tool calls on every iteration, both
loops fail with the limit-naming budget message after exactly 2 requests. -/
theorem claim4_witness :
    (sendWithAutoTools w4Transport w8Parse ⟨"go", [], 2⟩).error = some (budgetMessage 2)
  ∧ countRequests (sendWithAutoTools w4Transport w8Parse ⟨"go", [], 2⟩).trace = 2
  ∧ (streamWithAutoTools w4Stream w8Parse ⟨"go", [], 2⟩).errOut = some (budgetMessage 2)
  ∧ (streamWithAutoTools w4Stream w8Parse ⟨"go", [], 2⟩).requests = 2 := by
  have ht : w4Resp.ToolCalls ≠ [] := by decide
  have hs : (([deltaChunk w4Call] : List StreamChunk).foldl accumChunk ⟨"", []⟩).toolCalls ≠ [] := by
    decide
  have h := claim4_budget_exhaustion_after_two_iterations w4Transport w4Stream w8Parse "go" []
    (fun m => rfl) (fun m => ht) (fun m => rfl) (fun m => hs)
  exact ⟨h.1, h.2.2.1, h.2.2.2.2.1, h.2.2.2.2.2.1⟩

/-!
### C7 — event order within one streaming iteration (edgee.go:583-698)

The claim states that every iteration ends with exactly one
`iteration_complete` event. The code emits `iteration_complete` only after
executing an iteration's tool calls (edgee.go:694-698); a final iteration
whose accumulated turn carries no tool calls returns at edgee.go:632-634
right after its chunk events, emitting none — consistent with the spec's
own state machine (§4.2 steps 4 and 6), which emits `IterationComplete`
only from `ExecutingTools`. -/

/-- The events of the streaming executor are one `tool_start` immediately
followed by the matching `tool_result`, per call, in arrival order. -/
lemma execToolsStreaming_fst (handlers : String → Option ToolHandler)
    (parseArgs : String → Except String Args) :
    ∀ calls : List ToolCall,
      (execToolsStreaming handlers parseArgs calls).1
        = calls.flatMap (fun tc =>
            [StreamEvent.toolStart tc,
             StreamEvent.toolResult tc.Function.Name
               (streamToolValue handlers parseArgs tc) tc])
  | [] => rfl
  | tc :: rest => by
      simp [execToolsStreaming, execToolsStreaming_fst handlers parseArgs rest]

/-- C7 counterexample data: a single text-only delta and no tool calls. -/
def w7Chunk : StreamChunk :=
  { ID := "w7"
    Choices := [{ Index := 0, Delta := some { Content := some "final answer" } }] }

/-- C7 counterexample data: a streaming transport delivering only
`w7Chunk`. -/
def w7Stream : List Message → List StreamChunk × Option String :=
  fun _ => ([w7Chunk], none)

/-- C7 counterexample: an iteration that accumulates no tool calls emits
its chunk events and nothing else — in particular no `iteration_complete`
event, contradicting the claim that every iteration's events end with
exactly one `iteration_complete`. -/
theorem claim7_counterexample :
    (streamWithAutoTools w7Stream w8Parse ⟨"q", [], 1⟩).events
      = [StreamEvent.chunk w7Chunk]
  ∧ ((streamWithAutoTools w7Stream w8Parse ⟨"q", [], 1⟩).events.countP
      (fun e => e.isIterationComplete)) = 0 := by
  decide

/-- C7 (amended): within one iteration the emitted events are: one `chunk`
event per delta in arrival order; then, when no transport error occurred
and the accumulated turn carries at least one tool call, for each call in
arrival order a `tool_start` immediately followed by its `tool_result`,
then exactly one `iteration_complete` carrying the iteration number; a
final iteration with no tool calls, or one cut short by a transport error,
emits only its chunk events. -/
theorem claim7_iteration_event_order
    (streamReq : List Message → List StreamChunk × Option String)
    (handlers : String → Option ToolHandler)
    (parseArgs : String → Except String Args)
    (maxIter : Int) (fuel : Nat) (iteration : Int) (msgs : List Message) :
    ((streamReq msgs).2 = none →
      (((streamReq msgs).1.foldl accumChunk ⟨"", []⟩).toolCalls) ≠ [] →
      ∃ restEvents,
        (streamLoop streamReq handlers parseArgs maxIter (fuel + 1) iteration msgs).events
          = ((streamReq msgs).1.map StreamEvent.chunk)
            ++ (((streamReq msgs).1.foldl accumChunk ⟨"", []⟩).toolCalls).flatMap
                 (fun tc =>
                   [StreamEvent.toolStart tc,
                    StreamEvent.toolResult tc.Function.Name
                      (streamToolValue handlers parseArgs tc) tc])
            ++ [StreamEvent.iterationComplete (iteration + 1)]
            ++ restEvents)
  ∧ ((streamReq msgs).2 = none →
      (((streamReq msgs).1.foldl accumChunk ⟨"", []⟩).toolCalls) = [] →
      (streamLoop streamReq handlers parseArgs maxIter (fuel + 1) iteration msgs).events
        = ((streamReq msgs).1.map StreamEvent.chunk))
  ∧ (∀ e, (streamReq msgs).2 = some e →
      (streamLoop streamReq handlers parseArgs maxIter (fuel + 1) iteration msgs).events
        = ((streamReq msgs).1.map StreamEvent.chunk)) := by
  refine ⟨?_, ?_, ?_⟩
  · intro h1 h2
    have hstep := streamLoop_step_tools streamReq handlers parseArgs maxIter fuel iteration msgs h1 h2
    refine ⟨(streamLoop streamReq handlers parseArgs maxIter fuel (iteration + 1)
        ((msgs ++
          [{ Role := "assistant"
             Content := ((streamReq msgs).1.foldl accumChunk ⟨"", []⟩).content
             ToolCalls := ((streamReq msgs).1.foldl accumChunk ⟨"", []⟩).toolCalls }])
         ++ (execToolsStreaming handlers parseArgs
              (((streamReq msgs).1.foldl accumChunk ⟨"", []⟩).toolCalls)).2)).events, ?_⟩
    rw [hstep]
    simp only [execToolsStreaming_fst handlers parseArgs]
  · intro h1 h2
    rw [streamLoop_step_done streamReq handlers parseArgs maxIter fuel iteration msgs h1 h2]
  · intro e h1
    rw [streamLoop_step_err streamReq handlers parseArgs maxIter fuel iteration msgs e h1]

/-- C7 witness: the amended order at concrete inputs — a tool-call
iteration emits chunks, then the tool-event pairs, then
`iteration_complete 1`; a final no-tool-call iteration emits only its
chunk event. -/
theorem claim7_witness :
    (∃ restEvents,
        (streamLoop w4Stream (lookupHandler []) w8Parse 2 (1 + 1) 0 [userMessage "go"]).events
          = ((w4Stream [userMessage "go"]).1.map StreamEvent.chunk)
            ++ (((w4Stream [userMessage "go"]).1.foldl accumChunk ⟨"", []⟩).toolCalls).flatMap
                 (fun tc =>
                   [StreamEvent.toolStart tc,
                    StreamEvent.toolResult tc.Function.Name
                      (streamToolValue (lookupHandler []) w8Parse tc) tc])
            ++ [StreamEvent.iterationComplete (0 + 1)]
            ++ restEvents)
  ∧ (streamLoop w7Stream (lookupHandler []) w8Parse 2 (0 + 1) 0 [userMessage "q"]).events
      = ((w7Stream [userMessage "q"]).1.map StreamEvent.chunk) := by
  constructor
  · exact (claim7_iteration_event_order w4Stream (lookupHandler []) w8Parse 2 1 0
      [userMessage "go"]).1 rfl (by decide)
  · exact (claim7_iteration_event_order w7Stream (lookupHandler []) w8Parse 2 0 0
      [userMessage "q"]).2.1 rfl (by decide)

end Edgee
